import Mathlib

/-!
Verification development for the Neovim MCP bridge (`src/neovim.ts`).

The TypeScript module is shallowly embedded: the filesystem that socket
discovery scans is a `FS` value, and the remote Neovim side reached over
RPC is an environment record per operation (`DetailsEnv`, `OpenEnv`,
`ExecEnv`) giving the outcome of each remote call (`Except String` models
a JS promise that either resolves or rejects with an error message).
Each public operation returns its TypeScript result value together with a
trace of the transport events it dispatched (`attach`, the remote calls,
`close`), so that connection-lifecycle and dispatch-order properties can
be stated.
-/

set_option maxHeartbeats 1000000

/-- One running Neovim instance discovered through its socket file
(interface `NeovimInstance` in the source). -/
structure NeovimInstance where
  socket : String
  pid : Nat
  deriving DecidableEq, Repr

/-- One entry of the buffer list in a snapshot (the element shape of
`NeovimInstanceDetails.buffers` in the source). -/
structure BufferInfo where
  id : Nat
  name : String
  loaded : Bool
  current : Bool
  deriving DecidableEq, Repr

/-- Cursor position as reported in a snapshot. -/
structure CursorPosition where
  line : Int
  column : Int
  deriving DecidableEq, Repr

/-- Result of `getNeovimInstanceDetails` (interface `NeovimInstanceDetails`).
The TypeScript field `instance` is a Lean keyword, so it is named `inst`
here. Optional TypeScript fields become `Option`. -/
structure NeovimInstanceDetails where
  inst : NeovimInstance
  workingDirectory : Option String
  currentFile : Option String
  buffers : Option (List BufferInfo)
  cursorPosition : Option CursorPosition
  error : Option String
  deriving DecidableEq, Repr

/-- Result of `openFileInNeovim` (interface `NeovimOpenFileResult`).
`message` is non-optional in the source interface, hence a plain `String`. -/
structure NeovimOpenFileResult where
  success : Bool
  message : String
  file : Option String
  line : Option Int
  column : Option Int
  error : Option String
  deriving DecidableEq, Repr

/-- Result of `executeInNeovim` (interface `NeovimExecuteResult`). -/
structure NeovimExecuteResult where
  success : Bool
  message : String
  command : Option String
  output : Option String
  error : Option String
  deriving DecidableEq, Repr

/-- Result of a `statSync` call: the only field the source consults. -/
structure FileStat where
  isSocket : Bool
  deriving DecidableEq, Repr

/-- The filesystem as socket discovery observes it: whether `/tmp` exists,
what `readdirSync` returns (or that it throws), and what `statSync`
returns for each full path (or that it throws). -/
structure FS where
  tmpExists : Bool
  readdir : Except Unit (List String)
  stat : String → Except Unit FileStat

/-- JavaScript `String.prototype.startsWith`: the first `pat.length`
characters of `s` equal `pat`. -/
def jsStartsWith (s pat : String) : Bool :=
  s.data.take pat.data.length = pat.data

/-- JavaScript `String.prototype.endsWith`: the last `pat.length`
characters of `s` equal `pat`. -/
def jsEndsWith (s pat : String) : Bool :=
  s.data.drop (s.data.length - pat.data.length) = pat.data

/-- Numeric value of a run of decimal digit characters, as
`parseInt(digits, 10)` computes it. -/
def digitsToNat (ds : List Char) : Nat :=
  ds.foldl (fun a c => a * 10 + (c.toNat - 48)) 0

/-- Does the character list begin with `nvim-`, then a nonempty digit run,
then `.sock`? Returns the digit run's numeric value. This is the anchored
core of the regex `nvim-(\d+)\.sock`: greedy `\d+` with backtracking can
only succeed on the maximal digit run, because any shorter run is followed
by a digit which cannot match the literal dot. -/
def matchNvimSockAt (cs : List Char) : Option Nat :=
  if cs.take 5 = "nvim-".data then
    let rest := cs.drop 5
    let ds := rest.takeWhile Char.isDigit
    if ds ≠ [] ∧ (rest.dropWhile Char.isDigit).take 5 = ".sock".data then
      some (digitsToNat ds)
    else none
  else none

/-- JavaScript `file.match(/nvim-(\d+)\.sock/)` restricted to its first
capture group: the regex is unanchored, so the leftmost position at which
`nvim-<digits>.sock` occurs as a substring wins. -/
def findNvimSockMatch : List Char → Option Nat
  | [] => none
  | c :: cs =>
    match matchNvimSockAt (c :: cs) with
    | some n => some n
    | none => findNvimSockMatch cs

/-- Loop body of `findNeovimSockets`: the `for` loop over directory
entries, with `continue` on non-matching names, stat failures,
non-sockets, and regex misses. -/
def findNeovimSocketsGo (fs : FS) : List String → List NeovimInstance
  | [] => []
  | file :: rest =>
    if jsStartsWith file "nvim-" && jsEndsWith file ".sock" then
      match fs.stat ("/tmp/" ++ file) with
      | .error _ => findNeovimSocketsGo fs rest
      | .ok stats =>
        if stats.isSocket then
          match findNvimSockMatch file.data with
          | some pid => { socket := "/tmp/" ++ file, pid := pid } :: findNeovimSocketsGo fs rest
          | none => findNeovimSocketsGo fs rest
        else findNeovimSocketsGo fs rest
    else findNeovimSocketsGo fs rest

/-- `findNeovimSockets` from the source: scan `/tmp` for Neovim socket
files. A missing directory or a throwing `readdirSync` yields `[]`. -/
def findNeovimSockets (fs : FS) : List NeovimInstance :=
  if !fs.tmpExists then []
  else
    match fs.readdir with
    | .error _ => []
    | .ok files => findNeovimSocketsGo fs files

/-- `getNeovimInstance` from the source: linear search of the discovery
result for the requested pid (`sockets.find(...) || null`). -/
def getNeovimInstance (fs : FS) (pid : Nat) : Option NeovimInstance :=
  (findNeovimSockets fs).find? (fun s => s.pid == pid)

/-- JavaScript `v || d` on an optional number: `undefined` and `0` are
falsy (`NaN` is not modeled), anything else is itself. This is the shape
of `column || 1` and `endColumn || 999` in the source. -/
def jsOr (v : Option Int) (d : Int) : Int :=
  match v with
  | none => d
  | some x => if x = 0 then d else x

/-- JavaScript `s || undefined` on a string: the empty string is falsy and
becomes `undefined`. This is `currentFile || undefined` and
`output || undefined` in the source. -/
def jsStrOrUndef (s : String) : Option String :=
  if s = "" then none else some s

/-- JavaScript `result ? String(result) : ''` on a nullable string result
of `nvim.command`: `null` and the empty string both give `''`. -/
def jsTruthyStrD (r : Option String) : String :=
  match r with
  | none => ""
  | some s => if s = "" then "" else s

/-- The not-found message used verbatim by all three public operations. -/
def notFoundMsg (pid : Nat) : String :=
  "Neovim instance with PID " ++ toString pid ++ " not found"

/-- The `error` field of the not-found results of `openFileInNeovim` and
`executeInNeovim`. -/
def pidNotFoundErr (pid : Nat) : String :=
  "PID " ++ toString pid ++ " not found"

/-- The wrapper every operation's outer `catch` puts around the message of
the exception it caught, whether that exception came from `attach` or was
rethrown from inside the session. -/
def connectFailMsg (e : String) : String :=
  "Failed to connect to Neovim instance: " ++ e

/-- Message of the navigator when no position was requested. -/
def openedMsg (filePath : String) : String :=
  "Opened " ++ filePath

/-- Message of the navigator after the cursor move. -/
def openedAtMsg (filePath : String) (line col : Int) : String :=
  openedMsg filePath ++ " at line " ++ toString line ++ ", column " ++ toString col

/-- Message of the navigator after cursor move and selection. -/
def openedSelMsg (filePath : String) (line col endLine endCol : Int) : String :=
  openedAtMsg filePath line col ++ " (selected to line " ++ toString endLine ++
    ", column " ++ toString endCol ++ ")"

/-- Message of the executor in key-sequence mode. -/
def execKeyMsg (command : String) : String :=
  "Executed key sequence: " ++ command

/-- Message of the executor in command mode, before output is appended. -/
def execCmdMsg (command : String) : String :=
  "Executed command: " ++ command

/-- Placeholder buffer label `[Buffer <id>]` used when a buffer has no
name (`name || ...` in the source). -/
def bufferPlaceholder (id : Nat) : String :=
  "[Buffer " ++ toString id ++ "]"

/-- One transport event dispatched by an operation: the initial `attach`,
each remote call, or a `close` attempt. -/
inductive Event where
  | attach
  | command (cmd : String)
  | call (fn : String) (args : List Int)
  | input (keys : String)
  | rpcGetcwd
  | rpcCurrentBuffer
  | rpcBufferName (id : Nat)
  | rpcBufferLoaded (id : Nat)
  | rpcGetpos
  | rpcBufferList
  | close
  deriving DecidableEq, Repr

/-- Number of `close` attempts in a trace. -/
def countClose (tr : List Event) : Nat :=
  (tr.filter (fun ev => match ev with | .close => true | _ => false)).length

/-- Whether a trace contains the `nvim.input('v')` call that enters visual
mode, i.e. whether a selection was attempted. -/
def hasVisualInput (tr : List Event) : Bool :=
  tr.any (fun ev => match ev with | .input s => s == "v" | _ => false)

/-- Remote-side behavior of one buffer's `name` and `loaded` property
fetches. -/
structure BufferRemote where
  name : Except String String
  loaded : Except String Bool

/-- Is an `Except` an `ok`? -/
def exOk {α β : Type} (e : Except α β) : Bool :=
  match e with
  | .ok _ => true
  | .error _ => false

/-- Remote-side behavior visible to `getNeovimInstanceDetails`: outcome of
`attach`, of each remote call of the snapshot body (the buffer list
carries each buffer's id with its per-buffer fetch behavior), and of the
first `close` attempt. The outcome of a second `close` attempt is
irrelevant to the code (it is caught and ignored), so it has no field. -/
structure DetailsEnv where
  attach : Except String Unit
  getcwd : Except String String
  currentBuffer : Except String Nat
  currentBufferName : Except String String
  getpos : Except String (Int × Int)
  buffers : Except String (List (Nat × BufferRemote))
  close : Except String Unit

/-- Payload of a successful snapshot body (the values the inner `try`
block of `getNeovimInstanceDetails` returns with). -/
structure DetailsOk where
  workingDirectory : String
  currentFile : String
  buffers : List BufferInfo
  line : Int
  column : Int
  deriving DecidableEq, Repr

/-- The `Promise.all` over the buffer list. All per-buffer mappers start
synchronously, so every `name` fetch is dispatched before any `loaded`
fetch; under in-order response delivery the aggregate rejects with the
first failing `name` in buffer order, else the first failing `loaded` in
buffer order. On success each buffer's entry gets the placeholder label
when its name is empty, and `current` is set by id comparison with the
current buffer. -/
def fetchBufferInfos (curId : Nat) (bs : List (Nat × BufferRemote)) :
    Except String (List BufferInfo) := do
  let names ← bs.mapM (fun b => b.2.name)
  let loadeds ← bs.mapM (fun b => b.2.loaded)
  return (bs.zip (names.zip loadeds)).map (fun p =>
    { id := p.1.1
      name := if p.2.1 = "" then bufferPlaceholder p.1.1 else p.2.1
      loaded := p.2.2
      current := p.1.1 == curId })

/-- Dispatch trace of the `Promise.all` buffer phase: all `name` fetches
first (issued synchronously, in buffer order), then the `loaded` fetches
of the buffers whose `name` fetch resolved. -/
def bufferPhaseTrace (bs : List (Nat × BufferRemote)) : List Event :=
  bs.map (fun b => Event.rpcBufferName b.1) ++
    (bs.filter (fun b => exOk b.2.name)).map (fun b => Event.rpcBufferLoaded b.1)

/-- The inner `try` block of `getNeovimInstanceDetails` up to (not
including) the final `close`: the sequenced remote calls assembling the
snapshot, with the trace of dispatched calls. An `error` is the rethrown
`rpcError`. -/
def detailsBodyCore (env : DetailsEnv) : Except String DetailsOk × List Event :=
  match env.getcwd with
  | .error e => (.error e, [.rpcGetcwd])
  | .ok wd =>
    match env.currentBuffer with
    | .error e => (.error e, [.rpcGetcwd, .rpcCurrentBuffer])
    | .ok curId =>
      match env.currentBufferName with
      | .error e => (.error e, [.rpcGetcwd, .rpcCurrentBuffer, .rpcBufferName curId])
      | .ok currentFile =>
        match env.getpos with
        | .error e =>
          (.error e, [.rpcGetcwd, .rpcCurrentBuffer, .rpcBufferName curId, .rpcGetpos])
        | .ok pos =>
          match env.buffers with
          | .error e =>
            (.error e,
              [.rpcGetcwd, .rpcCurrentBuffer, .rpcBufferName curId, .rpcGetpos,
                .rpcBufferList])
          | .ok bs =>
            let tr := [Event.rpcGetcwd, Event.rpcCurrentBuffer,
              Event.rpcBufferName curId, Event.rpcGetpos, Event.rpcBufferList] ++
              bufferPhaseTrace bs
            match fetchBufferInfos curId bs with
            | .error e => (.error e, tr)
            | .ok infos =>
              (.ok { workingDirectory := wd, currentFile := currentFile,
                     buffers := infos, line := pos.1, column := pos.2 }, tr)

/-- The snapshot an errored `getNeovimInstanceDetails` returns: only the
instance and the error message. -/
def detailsErrorResult (inst : NeovimInstance) (err : String) : NeovimInstanceDetails :=
  { inst := inst, workingDirectory := none, currentFile := none, buffers := none,
    cursorPosition := none, error := some err }

/-- `getNeovimInstanceDetails` from the source. Locate the pid; attach;
run the snapshot body; `close` inside the `try` (so a failing close on the
success path is caught as an `rpcError`, closed again, and reported as a
connection failure); on an `rpcError` close once more (outcome ignored)
and rethrow into the outer `catch`, which wraps the message. -/
def getNeovimInstanceDetails (env : DetailsEnv) (fs : FS) (pid : Nat) :
    NeovimInstanceDetails × List Event :=
  match getNeovimInstance fs pid with
  | none => (detailsErrorResult { socket := "", pid := pid } (notFoundMsg pid), [])
  | some inst =>
    match env.attach with
    | .error e => (detailsErrorResult inst (connectFailMsg e), [.attach])
    | .ok _ =>
      match detailsBodyCore env with
      | (.error e, tr) =>
        (detailsErrorResult inst (connectFailMsg e), .attach :: tr ++ [.close])
      | (.ok v, tr) =>
        match env.close with
        | .ok _ =>
          ({ inst := inst, workingDirectory := some v.workingDirectory,
             currentFile := jsStrOrUndef v.currentFile, buffers := some v.buffers,
             cursorPosition := some { line := v.line, column := v.column },
             error := none }, .attach :: tr ++ [.close])
        | .error e =>
          (detailsErrorResult inst (connectFailMsg e), .attach :: tr ++ [.close, .close])

/-- Remote-side behavior visible to `openFileInNeovim`: outcome of
`attach`, of each remote call of the navigation body, and of the first
`close` attempt (a second close attempt's outcome is ignored by the
code). -/
structure OpenEnv where
  attach : Except String Unit
  edit : Except String Unit
  checktime : Except String Unit
  cursor1 : Except String Unit
  visual : Except String Unit
  cursor2 : Except String Unit
  close : Except String Unit

/-- The inner `try` block of `openFileInNeovim` up to (not including) the
final `close`: edit, checktime, then the optional cursor move and the
optional visual selection, accumulating the result message. -/
def openBodyCore (env : OpenEnv) (filePath : String)
    (line column endLine endColumn : Option Int) : Except String String × List Event :=
  match env.edit with
  | .error e => (.error e, [.command ("edit " ++ filePath)])
  | .ok _ =>
    match env.checktime with
    | .error e => (.error e, [.command ("edit " ++ filePath), .command "checktime"])
    | .ok _ =>
      match line with
      | none => (.ok (openedMsg filePath), [.command ("edit " ++ filePath), .command "checktime"])
      | some l =>
        let col := jsOr column 1
        match env.cursor1 with
        | .error e =>
          (.error e, [.command ("edit " ++ filePath), .command "checktime",
            .call "cursor" [l, col]])
        | .ok _ =>
          match endLine with
          | none =>
            (.ok (openedAtMsg filePath l col),
              [.command ("edit " ++ filePath), .command "checktime",
                .call "cursor" [l, col]])
          | some el =>
            let endCol := jsOr endColumn 999
            match env.visual with
            | .error e =>
              (.error e, [.command ("edit " ++ filePath), .command "checktime",
                .call "cursor" [l, col], .input "v"])
            | .ok _ =>
              match env.cursor2 with
              | .error e =>
                (.error e, [.command ("edit " ++ filePath), .command "checktime",
                  .call "cursor" [l, col], .input "v", .call "cursor" [el, endCol]])
              | .ok _ =>
                (.ok (openedSelMsg filePath l col el endCol),
                  [.command ("edit " ++ filePath), .command "checktime",
                    .call "cursor" [l, col], .input "v", .call "cursor" [el, endCol]])

/-- The failure result `openFileInNeovim` builds in its outer `catch`. -/
def openFailResult (filePath : String) (e : String) : NeovimOpenFileResult :=
  { success := false, message := "Failed to open file in Neovim", file := some filePath,
    line := none, column := none, error := some (connectFailMsg e) }

/-- `openFileInNeovim` from the source. Locate the pid; attach; run the
navigation body; `close` inside the `try`; the success result echoes the
raw `line` and `column` parameters. -/
def openFileInNeovim (env : OpenEnv) (fs : FS) (pid : Nat) (filePath : String)
    (line column endLine endColumn : Option Int) : NeovimOpenFileResult × List Event :=
  match getNeovimInstance fs pid with
  | none =>
    ({ success := false, message := notFoundMsg pid, file := none, line := none,
       column := none, error := some (pidNotFoundErr pid) }, [])
  | some _ =>
    match env.attach with
    | .error e => (openFailResult filePath e, [.attach])
    | .ok _ =>
      match openBodyCore env filePath line column endLine endColumn with
      | (.error e, tr) => (openFailResult filePath e, .attach :: tr ++ [.close])
      | (.ok msg, tr) =>
        match env.close with
        | .ok _ =>
          ({ success := true, message := msg, file := some filePath, line := line,
             column := column, error := none }, .attach :: tr ++ [.close])
        | .error e => (openFailResult filePath e, .attach :: tr ++ [.close, .close])

/-- JavaScript `String.prototype.trim`: strip whitespace from both ends.
Implemented over the character list so it evaluates in the kernel. -/
def jsTrim (s : String) : String :=
  { data := (((s.data.dropWhile Char.isWhitespace).reverse.dropWhile
      Char.isWhitespace).reverse : List Char) }

/-- Remote-side behavior visible to `executeInNeovim`: outcome of
`attach`, of the raw-input call, of the command call (an `ok` carries the
nullable string `nvim.command` resolves with; an `error` is the rejection
the inner `catch (cmdError)` captures), and of the first `close`. -/
structure ExecEnv where
  attach : Except String Unit
  input : Except String Unit
  command : Except String (Option String)
  close : Except String Unit

/-- The inner `try` block of `executeInNeovim` up to (not including) the
final `close`. In key-sequence mode a failing `nvim.input` is the
`rpcError`; in command mode the command call's rejection is caught by the
nested `catch (cmdError)` and turned into output text, so only the colon
marker is stripped before dispatch and the body itself never fails. An
`ok` carries the pair (resultMessage, output). -/
def execBodyCore (env : ExecEnv) (command : String) (isKeySequence : Bool) :
    Except String (String × String) × List Event :=
  if isKeySequence then
    match env.input with
    | .error e => (.error e, [.input command])
    | .ok _ => (.ok (execKeyMsg command, ""), [.input command])
  else
    let cleanCommand := if jsStartsWith command ":" then command.drop 1 else command
    let output :=
      match env.command with
      | .ok r => jsTruthyStrD r
      | .error e => e
    let rm :=
      if output ≠ "" && jsTrim output ≠ "" then execCmdMsg command ++ " → " ++ jsTrim output
      else execCmdMsg command
    (.ok (rm, output), [.command cleanCommand])

/-- The failure result `executeInNeovim` builds in its outer `catch`. -/
def execFailResult (command : String) (e : String) : NeovimExecuteResult :=
  { success := false, message := "Failed to execute command in Neovim",
    command := some command, output := none, error := some (connectFailMsg e) }

/-- `executeInNeovim` from the source. Locate the pid; attach; run the
execution body; `close` inside the `try`; the success result carries the
output through `output || undefined`. -/
def executeInNeovim (env : ExecEnv) (fs : FS) (pid : Nat) (command : String)
    (isKeySequence : Bool) : NeovimExecuteResult × List Event :=
  match getNeovimInstance fs pid with
  | none =>
    ({ success := false, message := notFoundMsg pid, command := some command,
       output := none, error := some (pidNotFoundErr pid) }, [])
  | some _ =>
    match env.attach with
    | .error e => (execFailResult command e, [.attach])
    | .ok _ =>
      match execBodyCore env command isKeySequence with
      | (.error e, tr) => (execFailResult command e, .attach :: tr ++ [.close])
      | (.ok mo, tr) =>
        match env.close with
        | .ok _ =>
          ({ success := true, message := mo.1, command := some command,
             output := jsStrOrUndef mo.2, error := none }, .attach :: tr ++ [.close])
        | .error e => (execFailResult command e, .attach :: tr ++ [.close, .close])

/-- The naming pattern of claim C6, following the spec's words: the whole
entry name is `nvim-<digits>.sock` with a nonempty digit run. (Taking the
maximal digit run after `nvim-` and requiring exactly `.sock` after it is
equivalent, since a digit run followed by `.sock` is maximal.) -/
def specSocketName (s : String) : Bool :=
  s.data.take 5 = "nvim-".data &&
    ((s.data.drop 5).takeWhile Char.isDigit ≠ [] &&
      (s.data.drop 5).dropWhile Char.isDigit = ".sock".data)

/-- The digit run of a name of the spec's pattern `nvim-<digits>.sock`. -/
def specDigits (s : String) : List Char :=
  (s.data.drop 5).takeWhile Char.isDigit

/-- Per-entry acceptance function that claim C6 asserts, following the
spec's words: keep an entry exactly when its whole name matches
`nvim-<digits>.sock` and a successful stat reports a socket, with the pid
parsed from the digit run. -/
def specAccept (fs : FS) (f : String) : Option NeovimInstance :=
  match fs.stat ("/tmp/" ++ f) with
  | .error _ => none
  | .ok st =>
    if st.isSocket && specSocketName f then
      some { socket := "/tmp/" ++ f, pid := digitsToNat (specDigits f) }
    else none

/-- Per-entry acceptance function the code actually implements: the
`startsWith`/`endsWith` guards, a successful stat reporting a socket, and
an unanchored leftmost regex match supplying the pid. -/
def codeAccept (fs : FS) (f : String) : Option NeovimInstance :=
  if jsStartsWith f "nvim-" && jsEndsWith f ".sock" then
    match fs.stat ("/tmp/" ++ f) with
    | .error _ => none
    | .ok st =>
      if st.isSocket then
        (findNvimSockMatch f.data).map (fun pid => { socket := "/tmp/" ++ f, pid := pid })
      else none
  else none

/-- Claim C6 as stated: discovery returns exactly one instance per entry
matching the `nvim-<digits>.sock` naming pattern that a successful stat
reports to be a socket, pid equal to the parsed digit run; everything else
skipped; missing directory or read failure give an empty list. -/
def claimC6 : Prop :=
  ∀ (fs : FS) (files : List String),
    (fs.tmpExists = false → findNeovimSockets fs = []) ∧
    (fs.readdir = .error () → findNeovimSockets fs = []) ∧
    (fs.tmpExists = true → fs.readdir = .ok files →
      findNeovimSockets fs = files.filterMap (specAccept fs))

/-- The strictly sequential dispatch order claim C9 asserts for the
per-buffer fetches of §4.4: each buffer's `name` fetch immediately
followed by its `loaded` fetch, buffer after buffer. -/
def seqBufferDispatch (ids : List Nat) : List Event :=
  (ids.map (fun i => [Event.rpcBufferName i, Event.rpcBufferLoaded i])).flatten

/-- Claim C9 as stated, instantiated to the snapshot operation on a fully
succeeding remote: the whole dispatch trace is the §4.4 sequence with the
per-buffer name and loaded fetches issued strictly one buffer after
another. Refuting this instance refutes the claim. -/
def claimC9 : Prop :=
  ∀ (env : DetailsEnv) (fs : FS) (pid : Nat) (inst : NeovimInstance) (wd : String)
    (cid : Nat) (cn : String) (p : Int × Int) (bs : List (Nat × BufferRemote)),
    getNeovimInstance fs pid = some inst → env.attach = .ok () →
    env.getcwd = .ok wd → env.currentBuffer = .ok cid →
    env.currentBufferName = .ok cn → env.getpos = .ok p →
    env.buffers = .ok bs → env.close = .ok () →
    (getNeovimInstanceDetails env fs pid).2 =
      [Event.attach, Event.rpcGetcwd, Event.rpcCurrentBuffer, Event.rpcBufferName cid,
        Event.rpcGetpos, Event.rpcBufferList] ++
        seqBufferDispatch (bs.map (fun b => b.1)) ++ [Event.close]

/-- Claim C1 as stated, instantiated to the snapshot operation: a remote
call failing after a successful attach (here `getcwd`, the first call of
the session) is reported with an error message distinct from the one an
attach failure produces. Refuting this instance refutes the claim. -/
def claimC1 : Prop :=
  ∀ (fsA fsR : FS) (pidA pidR : Nat) (envA envR : DetailsEnv) (eA eR : String),
    getNeovimInstance fsA pidA ≠ none → getNeovimInstance fsR pidR ≠ none →
    envA.attach = .error eA →
    envR.attach = .ok () → envR.getcwd = .error eR →
    (getNeovimInstanceDetails envA fsA pidA).1.error ≠
      (getNeovimInstanceDetails envR fsR pidR).1.error

/-- A `DetailsEnv` with the close step forced to succeed, used to state
that close outcomes should not influence an operation's result. -/
def withCloseOk (env : DetailsEnv) : DetailsEnv :=
  { env with close := .ok () }

/-- Claim C2 as stated, instantiated to the snapshot operation: once a
session is entered, the close step runs exactly once on every exit path,
and the result is the same as it would be with a succeeding close (close
failures never change the outcome). Refuting this instance refutes the
claim. -/
def claimC2 : Prop :=
  ∀ (env : DetailsEnv) (fs : FS) (pid : Nat),
    getNeovimInstance fs pid ≠ none → env.attach = .ok () →
    countClose (getNeovimInstanceDetails env fs pid).2 = 1 ∧
    (getNeovimInstanceDetails env fs pid).1 =
      (getNeovimInstanceDetails (withCloseOk env) fs pid).1

/-- A filesystem holding one well-formed Neovim socket `nvim-7.sock`. -/
def fsOne : FS :=
  { tmpExists := true, readdir := .ok ["nvim-7.sock"], stat := fun _ => .ok { isSocket := true } }

/-- A filesystem whose only entry starts with `nvim-`, ends with `.sock`,
but is not of the whole-name form `nvim-<digits>.sock`; it merely contains
`nvim-2.sock` as a proper substring. -/
def fsOdd : FS :=
  { tmpExists := true, readdir := .ok ["nvim-1-nvim-2.sock"],
    stat := fun _ => .ok { isSocket := true } }

/-- A filesystem with no socket directory at all. -/
def fsNone : FS :=
  { tmpExists := false, readdir := .ok [], stat := fun _ => .error () }

/-- A snapshot environment in which the initial attach fails. -/
def envAttachFail : DetailsEnv :=
  { attach := .error "boom", getcwd := .ok "/home", currentBuffer := .ok 1,
    currentBufferName := .ok "f.txt", getpos := .ok (3, 4), buffers := .ok [],
    close := .ok () }

/-- A snapshot environment in which attach succeeds and the first remote
call of the session fails with the same message. -/
def envRpcFail : DetailsEnv :=
  { envAttachFail with attach := .ok (), getcwd := .error "boom" }

/-- A snapshot environment in which the whole body succeeds and the first
close attempt fails. -/
def envCloseFail : DetailsEnv :=
  { attach := .ok (), getcwd := .ok "/home", currentBuffer := .ok 1,
    currentBufferName := .ok "f.txt", getpos := .ok (3, 4), buffers := .ok [],
    close := .error "boom" }

/-- A fully succeeding snapshot environment with two buffers. -/
def envTwoBuf : DetailsEnv :=
  { attach := .ok (), getcwd := .ok "/home", currentBuffer := .ok 1,
    currentBufferName := .ok "a", getpos := .ok (1, 1),
    buffers := .ok [(1, { name := .ok "a", loaded := .ok true }),
                    (2, { name := .ok "b", loaded := .ok true })],
    close := .ok () }

/-- A fully succeeding navigation environment. -/
def envOpenOk : OpenEnv :=
  { attach := .ok (), edit := .ok (), checktime := .ok (), cursor1 := .ok (),
    visual := .ok (), cursor2 := .ok (), close := .ok () }

/-- An execution environment whose remote rejects the command with a
domain-level error but input, attach and close succeed. -/
def envExecReject : ExecEnv :=
  { attach := .ok (), input := .ok (), command := .error "E492: Not an editor command",
    close := .ok () }

/-- A navigation environment in which the initial attach fails. -/
def envOpenAttachFail : OpenEnv :=
  { envOpenOk with attach := .error "boom" }

/-- A navigation environment whose body succeeds and whose first close
attempt fails. -/
def envOpenCloseFail : OpenEnv :=
  { envOpenOk with close := .error "boom" }

/-- An execution environment whose body succeeds and whose first close
attempt fails. -/
def envExecCloseFail : ExecEnv :=
  { attach := .ok (), input := .ok (), command := .ok none, close := .error "boom" }

/-- A nonempty string stays nonempty when something is appended. -/
theorem str_append_ne_empty (s t : String) (h : s ≠ "") : s ++ t ≠ "" := by
  intro he
  apply h
  have hl := congrArg String.length he
  rw [String.length_append] at hl
  have hs : s.length = 0 := by
    have : s.length + t.length = 0 := hl
    omega
  cases s with
  | mk data =>
    cases data with
    | nil => rfl
    | cons c cs => simp [String.length] at hs

theorem openedMsg_ne_empty (f : String) : openedMsg f ≠ "" :=
  str_append_ne_empty _ _ (by decide)

theorem openedAtMsg_ne_empty (f : String) (l c : Int) : openedAtMsg f l c ≠ "" := by
  unfold openedAtMsg
  exact str_append_ne_empty _ _ (str_append_ne_empty _ _
    (str_append_ne_empty _ _ (str_append_ne_empty _ _ (openedMsg_ne_empty f))))

theorem openedSelMsg_ne_empty (f : String) (l c el ec : Int) :
    openedSelMsg f l c el ec ≠ "" := by
  unfold openedSelMsg
  exact str_append_ne_empty _ _ (str_append_ne_empty _ _ (str_append_ne_empty _ _
    (str_append_ne_empty _ _ (str_append_ne_empty _ _ (openedAtMsg_ne_empty f l c)))))

theorem execKeyMsg_ne_empty (c : String) : execKeyMsg c ≠ "" :=
  str_append_ne_empty _ _ (by decide)

theorem execCmdMsg_ne_empty (c : String) : execCmdMsg c ≠ "" :=
  str_append_ne_empty _ _ (by decide)

theorem notFoundMsg_ne_empty (pid : Nat) : notFoundMsg pid ≠ "" := by
  unfold notFoundMsg
  exact str_append_ne_empty _ _ (str_append_ne_empty _ _ (by decide))

/-- The message a successful navigation body produces is never empty. -/
theorem openBodyCore_ok_msg (env : OpenEnv) (f : String) (lo co elo eco : Option Int)
    (m : String) (tr : List Event)
    (h : openBodyCore env f lo co elo eco = (.ok m, tr)) : m ≠ "" := by
  unfold openBodyCore at h
  repeat' split at h
  all_goals simp only [Prod.mk.injEq, Except.ok.injEq, reduceCtorEq, false_and] at h
  all_goals rw [← h.1]
  · exact openedMsg_ne_empty f
  · exact openedAtMsg_ne_empty f _ _
  · exact openedSelMsg_ne_empty f _ _ _ _

/-- The message a successful execution body produces is never empty. -/
theorem execBodyCore_ok_msg (env : ExecEnv) (c : String) (ks : Bool)
    (m out : String) (tr : List Event)
    (h : execBodyCore env c ks = (.ok (m, out), tr)) : m ≠ "" := by
  unfold execBodyCore at h
  repeat' split at h
  all_goals simp only [Prod.mk.injEq, Except.ok.injEq, reduceCtorEq, false_and] at h
  · rw [← h.1.1]; exact execKeyMsg_ne_empty c
  all_goals rw [← h.1.1]
  all_goals split
  all_goals first
    | exact str_append_ne_empty _ _ (str_append_ne_empty _ _ (execCmdMsg_ne_empty c))
    | exact execCmdMsg_ne_empty c

/-- A trace without a close event has close count zero. -/
theorem countClose_eq_zero_of_not_mem (tr : List Event) (h : Event.close ∉ tr) :
    countClose tr = 0 := by
  simp only [countClose, List.length_eq_zero, List.filter_eq_nil_iff]
  intro a ha
  cases a <;> simp_all

/-- Close count of a session trace ending in a single close. -/
theorem countClose_one_close (tr : List Event) :
    countClose (Event.attach :: tr ++ [Event.close]) = countClose tr + 1 := by
  simp [countClose, List.filter_append, List.filter]

/-- Close count of a session trace ending in two close attempts. -/
theorem countClose_two_close (tr : List Event) :
    countClose (Event.attach :: tr ++ [Event.close, Event.close]) = countClose tr + 2 := by
  simp [countClose, List.filter_append, List.filter]

/-- The snapshot body dispatches no close event of its own. -/
theorem detailsBodyCore_no_close (env : DetailsEnv) :
    Event.close ∉ (detailsBodyCore env).2 := by
  unfold detailsBodyCore
  repeat' split
  all_goals simp [bufferPhaseTrace, List.mem_append, List.mem_map]

/-- The navigation body dispatches no close event of its own. -/
theorem openBodyCore_no_close (env : OpenEnv) (f : String) (lo co elo eco : Option Int) :
    Event.close ∉ (openBodyCore env f lo co elo eco).2 := by
  unfold openBodyCore
  repeat' split
  all_goals simp

/-- The execution body dispatches no close event of its own. -/
theorem execBodyCore_no_close (env : ExecEnv) (c : String) (ks : Bool) :
    Event.close ∉ (execBodyCore env c ks).2 := by
  unfold execBodyCore
  repeat' split
  all_goals simp

/-- C3: for every pid and every remote behavior, if the snapshot returned
by `getNeovimInstanceDetails` has its `error` field set, then
`workingDirectory`, `currentFile`, `buffers` and `cursorPosition` are all
absent — whenever any remote call inside the session fails, the snapshot
carries only the instance and an error, never a partially assembled field. -/
theorem C3_snapshot_error_implies_bare (env : DetailsEnv) (fs : FS) (pid : Nat)
    (h : ((getNeovimInstanceDetails env fs pid).1.error).isSome = true) :
    (getNeovimInstanceDetails env fs pid).1.workingDirectory = none ∧
    (getNeovimInstanceDetails env fs pid).1.currentFile = none ∧
    (getNeovimInstanceDetails env fs pid).1.buffers = none ∧
    (getNeovimInstanceDetails env fs pid).1.cursorPosition = none := by
  cases hI : getNeovimInstance fs pid with
  | none => simp [getNeovimInstanceDetails, hI, detailsErrorResult]
  | some inst =>
    cases hA : env.attach with
    | error e => simp [getNeovimInstanceDetails, hI, hA, detailsErrorResult]
    | ok u =>
      rcases hB : detailsBodyCore env with ⟨res, tr⟩
      cases res with
      | error e => simp [getNeovimInstanceDetails, hI, hA, hB, detailsErrorResult]
      | ok v =>
        cases hC : env.close with
        | error e => simp [getNeovimInstanceDetails, hI, hA, hB, hC, detailsErrorResult]
        | ok u2 =>
          exfalso
          simp [getNeovimInstanceDetails, hI, hA, hB, hC] at h

/-- Witness for C3 at a concrete input: a pid absent from discovery, whose
snapshot has the error set. -/
theorem C3_witness :
    (((getNeovimInstanceDetails envTwoBuf fsNone 9999999).1.error).isSome = true) ∧
    (getNeovimInstanceDetails envTwoBuf fsNone 9999999).1.workingDirectory = none ∧
    (getNeovimInstanceDetails envTwoBuf fsNone 9999999).1.currentFile = none ∧
    (getNeovimInstanceDetails envTwoBuf fsNone 9999999).1.buffers = none ∧
    (getNeovimInstanceDetails envTwoBuf fsNone 9999999).1.cursorPosition = none :=
  ⟨by decide, C3_snapshot_error_implies_bare envTwoBuf fsNone 9999999 (by decide)⟩

/-- C7: for a pid not present in discovery, each public operation returns
its not-found result — the snapshot echoing the requested pid with an
empty socket path, navigate and execute with `success := false` — with an
error message mentioning the pid, and an empty transport trace (no
connection is ever attempted). -/
theorem C7_not_found (fs : FS) (pid : Nat) (envD : DetailsEnv) (envO : OpenEnv)
    (envE : ExecEnv) (f cmd : String) (lo co elo eco : Option Int) (ks : Bool)
    (h : getNeovimInstance fs pid = none) :
    getNeovimInstanceDetails envD fs pid =
      (detailsErrorResult { socket := "", pid := pid } (notFoundMsg pid), []) ∧
    openFileInNeovim envO fs pid f lo co elo eco =
      ({ success := false, message := notFoundMsg pid, file := none, line := none,
         column := none, error := some (pidNotFoundErr pid) }, []) ∧
    executeInNeovim envE fs pid cmd ks =
      ({ success := false, message := notFoundMsg pid, command := some cmd,
         output := none, error := some (pidNotFoundErr pid) }, []) ∧
    (∃ a b, pidNotFoundErr pid = a ++ toString pid ++ b) ∧
    (∃ a b, notFoundMsg pid = a ++ toString pid ++ b) := by
  refine ⟨?_, ?_, ?_, ⟨"PID ", " not found", rfl⟩,
    ⟨"Neovim instance with PID ", " not found", rfl⟩⟩
  · simp [getNeovimInstanceDetails, h]
  · simp [openFileInNeovim, h]
  · simp [executeInNeovim, h]

/-- Witness for C7 at a concrete input: pid 9999999 against a filesystem
with no socket directory. -/
theorem C7_witness :
    getNeovimInstanceDetails envTwoBuf fsNone 9999999 =
      (detailsErrorResult { socket := "", pid := 9999999 } (notFoundMsg 9999999), []) ∧
    executeInNeovim envExecReject fsNone 9999999 ":w" false =
      ({ success := false, message := notFoundMsg 9999999, command := some ":w",
         output := none, error := some (pidNotFoundErr 9999999) }, []) := by
  have h := C7_not_found fsNone 9999999 envTwoBuf envOpenOk envExecReject "f.txt" ":w"
    none none none none false (by decide)
  exact ⟨h.1, h.2.2.1⟩

/-- C8: on every input and every remote behavior, the results of
`openFileInNeovim` and `executeInNeovim` have the `error` field present
exactly when `success` is false; the `message` field is a non-optional
string in both result shapes (by construction) and is moreover never
empty. -/
theorem C8_result_invariant (envO : OpenEnv) (envE : ExecEnv) (fs : FS) (pid : Nat)
    (f cmd : String) (lo co elo eco : Option Int) (ks : Bool) :
    ((openFileInNeovim envO fs pid f lo co elo eco).1.error ≠ none ↔
      (openFileInNeovim envO fs pid f lo co elo eco).1.success = false) ∧
    (openFileInNeovim envO fs pid f lo co elo eco).1.message ≠ "" ∧
    ((executeInNeovim envE fs pid cmd ks).1.error ≠ none ↔
      (executeInNeovim envE fs pid cmd ks).1.success = false) ∧
    (executeInNeovim envE fs pid cmd ks).1.message ≠ "" := by
  refine ⟨?_, ?_, ?_, ?_⟩ <;>
  · cases hI : getNeovimInstance fs pid with
    | none =>
      simp [openFileInNeovim, executeInNeovim, hI]
      try exact notFoundMsg_ne_empty pid
    | some inst =>
      first
      | -- navigate conjuncts
        cases hA : envO.attach with
        | error e => simp [openFileInNeovim, hI, hA, openFailResult]
        | ok u =>
          rcases hB : openBodyCore envO f lo co elo eco with ⟨res, tr⟩
          cases res with
          | error e => simp [openFileInNeovim, hI, hA, hB, openFailResult]
          | ok m =>
            cases hC : envO.close with
            | error e => simp [openFileInNeovim, hI, hA, hB, hC, openFailResult]
            | ok u2 =>
              simp [openFileInNeovim, hI, hA, hB, hC]
              try exact openBodyCore_ok_msg envO f lo co elo eco m tr hB
      | -- execute conjuncts
        cases hA : envE.attach with
        | error e => simp [executeInNeovim, hI, hA, execFailResult]
        | ok u =>
          rcases hB : execBodyCore envE cmd ks with ⟨res, tr⟩
          cases res with
          | error e => simp [executeInNeovim, hI, hA, hB, execFailResult]
          | ok mo =>
            cases hC : envE.close with
            | error e => simp [executeInNeovim, hI, hA, hB, hC, execFailResult]
            | ok u2 =>
              simp [executeInNeovim, hI, hA, hB, hC]
              try exact execBodyCore_ok_msg envE cmd ks mo.1 mo.2 tr (by rw [hB])

/-- Witness for C8 at a concrete input. -/
theorem C8_witness :
    (openFileInNeovim envOpenOk fsOne 7 "f.txt" none none none none).1.message ≠ "" ∧
    ((executeInNeovim envExecReject fsOne 7 ":w" false).1.error ≠ none ↔
      (executeInNeovim envExecReject fsOne 7 ":w" false).1.success = false) :=
  ⟨(C8_result_invariant envOpenOk envExecReject fsOne 7 "f.txt" ":w"
      none none none none false).2.1,
    (C8_result_invariant envOpenOk envExecReject fsOne 7 "f.txt" ":w"
      none none none none false).2.2.1⟩

/-- C4: in command mode (`isKeySequence = false`), when the remote
command call rejects with a domain-level error message `e` (nonempty once
trimmed) and the transport itself behaves (attach and close succeed), the
operation still returns `success := true`, captures `e` as `output`, and
embeds the trimmed text in the message; in key-sequence mode, once the raw
input call succeeds the operation returns `success := true` describing the
injected sequence, the injected string is the command verbatim (no marker
stripping), and nothing about the command's effect is inspected — the
trace is exactly attach, input, close. -/
theorem C4_executor_modes (env : ExecEnv) (fs : FS) (pid : Nat) (inst : NeovimInstance)
    (cmd e : String) (hI : getNeovimInstance fs pid = some inst)
    (hA : env.attach = .ok ()) (hC : env.close = .ok ()) :
    (env.command = .error e → jsTrim e ≠ "" →
      (executeInNeovim env fs pid cmd false).1.success = true ∧
      (executeInNeovim env fs pid cmd false).1.output = some e ∧
      (executeInNeovim env fs pid cmd false).1.message =
        execCmdMsg cmd ++ " → " ++ jsTrim e) ∧
    (env.input = .ok () →
      (executeInNeovim env fs pid cmd true).1 =
        { success := true, message := execKeyMsg cmd, command := some cmd,
          output := none, error := none } ∧
      (executeInNeovim env fs pid cmd true).2 =
        [Event.attach, Event.input cmd, Event.close]) := by
  constructor
  · intro hCmd hTrim
    have hne : e ≠ "" := by
      intro h0
      apply hTrim
      rw [h0]
      rfl
    simp [executeInNeovim, execBodyCore, hI, hA, hC, hCmd, hne, hTrim, jsStrOrUndef]
  · intro hInput
    simp [executeInNeovim, execBodyCore, hI, hA, hC, hInput, jsStrOrUndef]

/-- Witness for C4 at a concrete input: a rejected `:nosuchcommand` in
command mode and a raw key sequence. -/
theorem C4_witness :
    (executeInNeovim envExecReject fsOne 7 ":nosuchcommand" false).1.success = true ∧
    (executeInNeovim envExecReject fsOne 7 ":nosuchcommand" false).1.output =
      some "E492: Not an editor command" ∧
    (executeInNeovim envExecReject fsOne 7 "ihello<Esc>" true).2 =
      [Event.attach, Event.input "ihello<Esc>", Event.close] := by
  have h1 := C4_executor_modes envExecReject fsOne 7 { socket := "/tmp/nvim-7.sock", pid := 7 }
    ":nosuchcommand" "E492: Not an editor command" (by decide) rfl rfl
  have h2 := C4_executor_modes envExecReject fsOne 7 { socket := "/tmp/nvim-7.sock", pid := 7 }
    "ihello<Esc>" "E492: Not an editor command" (by decide) rfl rfl
  exact ⟨(h1.1 rfl (by decide)).1, (h1.1 rfl (by decide)).2.1, (h2.2 rfl).2⟩

/-- C5: on a behaving transport, navigating with a line but no column
moves the cursor to column 1 and produces no selection; navigating with
line and endLine but no columns moves to column 1 and selects to
(endLine, 999), the sentinel 999 passed verbatim in the cursor call; and
a selection (the visual-mode input) is attempted exactly when both `line`
and `endLine` are given. -/
theorem C5_navigator_defaults (env : OpenEnv) (fs : FS) (pid : Nat)
    (inst : NeovimInstance) (f : String) (l el : Int)
    (hI : getNeovimInstance fs pid = some inst) (hA : env.attach = .ok ())
    (hE : env.edit = .ok ()) (hK : env.checktime = .ok ())
    (hC1 : env.cursor1 = .ok ()) (hV : env.visual = .ok ())
    (hC2 : env.cursor2 = .ok ()) (hCl : env.close = .ok ()) :
    (openFileInNeovim env fs pid f (some l) none none none).2 =
      [Event.attach, Event.command ("edit " ++ f), Event.command "checktime",
        Event.call "cursor" [l, 1], Event.close] ∧
    (openFileInNeovim env fs pid f (some l) none none none).1.success = true ∧
    (openFileInNeovim env fs pid f (some l) none none none).1.message =
      openedAtMsg f l 1 ∧
    (openFileInNeovim env fs pid f (some l) none (some el) none).2 =
      [Event.attach, Event.command ("edit " ++ f), Event.command "checktime",
        Event.call "cursor" [l, 1], Event.input "v", Event.call "cursor" [el, 999],
        Event.close] ∧
    (openFileInNeovim env fs pid f (some l) none (some el) none).1.message =
      openedSelMsg f l 1 el 999 ∧
    (∀ lo co elo eco : Option Int,
      hasVisualInput (openFileInNeovim env fs pid f lo co elo eco).2 = true ↔
        (lo ≠ none ∧ elo ≠ none)) := by
  refine ⟨?_, ?_, ?_, ?_, ?_, ?_⟩
  · simp [openFileInNeovim, openBodyCore, hI, hA, hE, hK, hC1, hCl, jsOr]
  · simp [openFileInNeovim, openBodyCore, hI, hA, hE, hK, hC1, hCl, jsOr]
  · simp [openFileInNeovim, openBodyCore, hI, hA, hE, hK, hC1, hCl, jsOr]
  · simp [openFileInNeovim, openBodyCore, hI, hA, hE, hK, hC1, hV, hC2, hCl, jsOr]
  · simp [openFileInNeovim, openBodyCore, hI, hA, hE, hK, hC1, hV, hC2, hCl, jsOr]
  · intro lo co elo eco
    cases lo with
    | none =>
      simp [openFileInNeovim, openBodyCore, hI, hA, hE, hK, hCl, hasVisualInput]
    | some l2 =>
      cases elo with
      | none =>
        simp [openFileInNeovim, openBodyCore, hI, hA, hE, hK, hC1, hCl, hasVisualInput]
      | some el2 =>
        simp [openFileInNeovim, openBodyCore, hI, hA, hE, hK, hC1, hV, hC2, hCl,
          hasVisualInput]

/-- Witness for C5 at a concrete input: line 10, endLine 20. -/
theorem C5_witness :
    (openFileInNeovim envOpenOk fsOne 7 "f.txt" (some 10) none none none).2 =
      [Event.attach, Event.command ("edit " ++ "f.txt"), Event.command "checktime",
        Event.call "cursor" [10, 1], Event.close] ∧
    (openFileInNeovim envOpenOk fsOne 7 "f.txt" (some 10) none (some 20) none).2 =
      [Event.attach, Event.command ("edit " ++ "f.txt"), Event.command "checktime",
        Event.call "cursor" [10, 1], Event.input "v", Event.call "cursor" [20, 999],
        Event.close] := by
  have h := C5_navigator_defaults envOpenOk fsOne 7 { socket := "/tmp/nvim-7.sock", pid := 7 }
    "f.txt" 10 20 (by decide) rfl rfl rfl rfl rfl rfl rfl
  exact ⟨h.1, h.2.2.2.1⟩

/-- C10: an explicitly passed column of 0 behaves exactly like an omitted
column (the cursor call uses column 1), and an explicit endColumn of 0
behaves exactly like an omitted endColumn (the selection extends to
column 999): the JavaScript defaulting uses `||`, so every falsy column
value triggers the default. The results agree on every field except the
verbatim `column` echo, and the traces are identical on every environment
and path; for endColumn the whole result is identical. -/
theorem C10_zero_column_defaults (env : OpenEnv) (fs : FS) (pid : Nat) (f : String)
    (l : Int) (co : Option Int) (elo eco : Option Int) (el : Int) :
    (openFileInNeovim env fs pid f (some l) (some 0) elo eco).2 =
      (openFileInNeovim env fs pid f (some l) none elo eco).2 ∧
    (openFileInNeovim env fs pid f (some l) (some 0) elo eco).1.success =
      (openFileInNeovim env fs pid f (some l) none elo eco).1.success ∧
    (openFileInNeovim env fs pid f (some l) (some 0) elo eco).1.message =
      (openFileInNeovim env fs pid f (some l) none elo eco).1.message ∧
    (openFileInNeovim env fs pid f (some l) (some 0) elo eco).1.error =
      (openFileInNeovim env fs pid f (some l) none elo eco).1.error ∧
    openFileInNeovim env fs pid f (some l) co (some el) (some 0) =
      openFileInNeovim env fs pid f (some l) co (some el) none := by
  have hb : openBodyCore env f (some l) (some 0) elo eco =
      openBodyCore env f (some l) none elo eco := by
    simp [openBodyCore, jsOr]
  have hb2 : openBodyCore env f (some l) co (some el) (some 0) =
      openBodyCore env f (some l) co (some el) none := by
    simp [openBodyCore, jsOr]
  refine ⟨?_, ?_, ?_, ?_, ?_⟩ <;> simp only [openFileInNeovim, hb, hb2] <;>
  · cases getNeovimInstance fs pid with
    | none => rfl
    | some inst =>
      cases env.attach with
      | error e => rfl
      | ok u =>
        rcases h3 : openBodyCore env f (some l) none elo eco with ⟨res, tr⟩
        cases res with
        | error e => simp [h3]
        | ok m =>
          cases env.close with
          | ok u2 => simp [h3]
          | error e => simp [h3]

/-- C1 counterexample: the claim is false. With the same underlying
message "boom", an attach failure and a post-attach remote-call failure
produce byte-for-byte identical error messages, because the rethrown
`rpcError` lands in the same outer `catch` that wraps attach failures in
`Failed to connect to Neovim instance: ...`. -/
theorem C1_counterexample : ¬ claimC1 := by
  intro h
  exact h fsOne fsOne 7 7 envAttachFail envRpcFail "boom" "boom"
    (by decide) (by decide) rfl rfl rfl (by decide)

/-- C1 amended: in every public operation, both failure tiers are
reported through one and the same wrapper. For each of snapshot, navigate
and execute, an attach failure with message `e`, any remote-call failure
during the session's body with message `e`, and a close failure with
message `e` after a successful body all yield the error `Failed to
connect to Neovim instance: e`; the two tiers are distinguishable only
insofar as the underlying messages differ, not by the operation's own
reporting. -/
theorem C1_amended_uniform_wrapper (envD : DetailsEnv) (envO : OpenEnv) (envE : ExecEnv)
    (fs : FS) (pid : Nat) (inst : NeovimInstance) (e : String) (f cmd : String)
    (lo co elo eco : Option Int) (ks : Bool)
    (hI : getNeovimInstance fs pid = some inst) :
    (envD.attach = .error e →
      (getNeovimInstanceDetails envD fs pid).1.error = some (connectFailMsg e)) ∧
    (∀ tr, envD.attach = .ok () → detailsBodyCore envD = (.error e, tr) →
      (getNeovimInstanceDetails envD fs pid).1.error = some (connectFailMsg e)) ∧
    (∀ v tr, envD.attach = .ok () → detailsBodyCore envD = (.ok v, tr) →
      envD.close = .error e →
      (getNeovimInstanceDetails envD fs pid).1.error = some (connectFailMsg e)) ∧
    (envO.attach = .error e →
      (openFileInNeovim envO fs pid f lo co elo eco).1.error = some (connectFailMsg e)) ∧
    (∀ tr, envO.attach = .ok () → openBodyCore envO f lo co elo eco = (.error e, tr) →
      (openFileInNeovim envO fs pid f lo co elo eco).1.error = some (connectFailMsg e)) ∧
    (∀ m tr, envO.attach = .ok () → openBodyCore envO f lo co elo eco = (.ok m, tr) →
      envO.close = .error e →
      (openFileInNeovim envO fs pid f lo co elo eco).1.error = some (connectFailMsg e)) ∧
    (envE.attach = .error e →
      (executeInNeovim envE fs pid cmd ks).1.error = some (connectFailMsg e)) ∧
    (∀ tr, envE.attach = .ok () → execBodyCore envE cmd ks = (.error e, tr) →
      (executeInNeovim envE fs pid cmd ks).1.error = some (connectFailMsg e)) ∧
    (∀ mo tr, envE.attach = .ok () → execBodyCore envE cmd ks = (.ok mo, tr) →
      envE.close = .error e →
      (executeInNeovim envE fs pid cmd ks).1.error = some (connectFailMsg e)) := by
  refine ⟨?_, ?_, ?_, ?_, ?_, ?_, ?_, ?_, ?_⟩
  · intro hA
    simp [getNeovimInstanceDetails, hI, hA, detailsErrorResult]
  · intro tr hA hB
    simp [getNeovimInstanceDetails, hI, hA, hB, detailsErrorResult]
  · intro v tr hA hB hC
    simp [getNeovimInstanceDetails, hI, hA, hB, hC, detailsErrorResult]
  · intro hA
    simp [openFileInNeovim, hI, hA, openFailResult]
  · intro tr hA hB
    simp [openFileInNeovim, hI, hA, hB, openFailResult]
  · intro m tr hA hB hC
    simp [openFileInNeovim, hI, hA, hB, hC, openFailResult]
  · intro hA
    simp [executeInNeovim, hI, hA, execFailResult]
  · intro tr hA hB
    simp [executeInNeovim, hI, hA, hB, execFailResult]
  · intro mo tr hA hB hC
    simp [executeInNeovim, hI, hA, hB, hC, execFailResult]

/-- Witness for the amended C1 at concrete inputs: a during-use failure
of the snapshot, an attach failure of the navigator, and a close failure
of the executor all carry the same wrapper. -/
theorem C1_amended_witness :
    (getNeovimInstanceDetails envRpcFail fsOne 7).1.error =
      some (connectFailMsg "boom") ∧
    (openFileInNeovim envOpenAttachFail fsOne 7 "f.txt" none none none none).1.error =
      some (connectFailMsg "boom") ∧
    (executeInNeovim envExecCloseFail fsOne 7 ":w" false).1.error =
      some (connectFailMsg "boom") := by
  have h := C1_amended_uniform_wrapper envRpcFail envOpenAttachFail envExecCloseFail
    fsOne 7 { socket := "/tmp/nvim-7.sock", pid := 7 } "boom" "f.txt" ":w"
    none none none none false (by decide)
  exact ⟨h.2.1 [Event.rpcGetcwd] rfl rfl, h.2.2.2.1 rfl,
    h.2.2.2.2.2.2.2.2 (execCmdMsg ":w", "") [Event.command "w"] rfl rfl rfl⟩

/-- C2 counterexample: the claim is false. On an environment whose body
succeeds entirely and whose close step fails, the snapshot operation
attempts close twice (not exactly once), and the result differs from the
result under a succeeding close: the successful body's outcome is replaced
by a connection-failure report carrying the close error. -/
theorem C2_counterexample : ¬ claimC2 := by
  intro h
  have hc := h envCloseFail fsOne 7 (by decide) rfl
  have h1 : countClose (getNeovimInstanceDetails envCloseFail fsOne 7).2 = 2 := by decide
  rw [hc.1] at h1
  exact absurd h1 (by decide)

/-- C2 amended: for every session opened by snapshot, navigate or
execute, close is attempted at least once (and at most twice) on every
exit path. When the body fails, close is attempted exactly once and its
own outcome never changes the reported failure, which is the body's
error. When the body succeeds, a succeeding close yields the success
result with one close attempt — but a failing close is caught as an
rpcError, triggers a second close attempt (whose outcome is swallowed),
and replaces the successful outcome with a connection-failure report
carrying the close error. -/
theorem C2_amended_close_discipline (envD : DetailsEnv) (envO : OpenEnv) (envE : ExecEnv)
    (fs : FS) (pid : Nat) (inst : NeovimInstance) (f cmd : String)
    (lo co elo eco : Option Int) (ks : Bool)
    (hI : getNeovimInstance fs pid = some inst) :
    (envD.attach = .ok () →
      (1 ≤ countClose (getNeovimInstanceDetails envD fs pid).2 ∧
        countClose (getNeovimInstanceDetails envD fs pid).2 ≤ 2) ∧
      (∀ e tr, detailsBodyCore envD = (.error e, tr) →
        (getNeovimInstanceDetails envD fs pid).1 =
          detailsErrorResult inst (connectFailMsg e) ∧
        countClose (getNeovimInstanceDetails envD fs pid).2 = 1) ∧
      (∀ v tr, detailsBodyCore envD = (.ok v, tr) →
        (envD.close = .ok () →
          (getNeovimInstanceDetails envD fs pid).1 =
            { inst := inst, workingDirectory := some v.workingDirectory,
              currentFile := jsStrOrUndef v.currentFile, buffers := some v.buffers,
              cursorPosition := some { line := v.line, column := v.column },
              error := none } ∧
          countClose (getNeovimInstanceDetails envD fs pid).2 = 1) ∧
        (∀ e, envD.close = .error e →
          (getNeovimInstanceDetails envD fs pid).1 =
            detailsErrorResult inst (connectFailMsg e) ∧
          countClose (getNeovimInstanceDetails envD fs pid).2 = 2))) ∧
    (envO.attach = .ok () →
      (1 ≤ countClose (openFileInNeovim envO fs pid f lo co elo eco).2 ∧
        countClose (openFileInNeovim envO fs pid f lo co elo eco).2 ≤ 2) ∧
      (∀ e tr, openBodyCore envO f lo co elo eco = (.error e, tr) →
        (openFileInNeovim envO fs pid f lo co elo eco).1 = openFailResult f e ∧
        countClose (openFileInNeovim envO fs pid f lo co elo eco).2 = 1) ∧
      (∀ m tr, openBodyCore envO f lo co elo eco = (.ok m, tr) →
        (envO.close = .ok () →
          (openFileInNeovim envO fs pid f lo co elo eco).1 =
            { success := true, message := m, file := some f, line := lo,
              column := co, error := none } ∧
          countClose (openFileInNeovim envO fs pid f lo co elo eco).2 = 1) ∧
        (∀ e, envO.close = .error e →
          (openFileInNeovim envO fs pid f lo co elo eco).1 = openFailResult f e ∧
          countClose (openFileInNeovim envO fs pid f lo co elo eco).2 = 2))) ∧
    (envE.attach = .ok () →
      (1 ≤ countClose (executeInNeovim envE fs pid cmd ks).2 ∧
        countClose (executeInNeovim envE fs pid cmd ks).2 ≤ 2) ∧
      (∀ e tr, execBodyCore envE cmd ks = (.error e, tr) →
        (executeInNeovim envE fs pid cmd ks).1 = execFailResult cmd e ∧
        countClose (executeInNeovim envE fs pid cmd ks).2 = 1) ∧
      (∀ mo tr, execBodyCore envE cmd ks = (.ok mo, tr) →
        (envE.close = .ok () →
          (executeInNeovim envE fs pid cmd ks).1 =
            { success := true, message := mo.1, command := some cmd,
              output := jsStrOrUndef mo.2, error := none } ∧
          countClose (executeInNeovim envE fs pid cmd ks).2 = 1) ∧
        (∀ e, envE.close = .error e →
          (executeInNeovim envE fs pid cmd ks).1 = execFailResult cmd e ∧
          countClose (executeInNeovim envE fs pid cmd ks).2 = 2))) := by
  refine ⟨?_, ?_, ?_⟩
  · intro hA
    have hz : countClose (detailsBodyCore envD).2 = 0 :=
      countClose_eq_zero_of_not_mem _ (detailsBodyCore_no_close envD)
    refine ⟨?_, ?_, ?_⟩
    · rcases hB : detailsBodyCore envD with ⟨res, tr⟩
      rw [hB] at hz
      have hz2 : countClose tr = 0 := hz
      cases res with
      | error e =>
        simp only [getNeovimInstanceDetails, hI, hA, hB, countClose_one_close]
        omega
      | ok v =>
        cases hC : envD.close with
        | ok u =>
          simp only [getNeovimInstanceDetails, hI, hA, hB, hC, countClose_one_close]
          omega
        | error e =>
          simp only [getNeovimInstanceDetails, hI, hA, hB, hC, countClose_two_close]
          omega
    · intro e tr hB
      rw [hB] at hz
      have hz2 : countClose tr = 0 := hz
      constructor
      · simp [getNeovimInstanceDetails, hI, hA, hB]
      · simp only [getNeovimInstanceDetails, hI, hA, hB, countClose_one_close]
        omega
    · intro v tr hB
      rw [hB] at hz
      have hz2 : countClose tr = 0 := hz
      constructor
      · intro hC
        constructor
        · simp [getNeovimInstanceDetails, hI, hA, hB, hC]
        · simp only [getNeovimInstanceDetails, hI, hA, hB, hC, countClose_one_close]
          omega
      · intro e hC
        constructor
        · simp [getNeovimInstanceDetails, hI, hA, hB, hC]
        · simp only [getNeovimInstanceDetails, hI, hA, hB, hC, countClose_two_close]
          omega
  · intro hA
    have hz : countClose (openBodyCore envO f lo co elo eco).2 = 0 :=
      countClose_eq_zero_of_not_mem _ (openBodyCore_no_close envO f lo co elo eco)
    refine ⟨?_, ?_, ?_⟩
    · rcases hB : openBodyCore envO f lo co elo eco with ⟨res, tr⟩
      rw [hB] at hz
      have hz2 : countClose tr = 0 := hz
      cases res with
      | error e =>
        simp only [openFileInNeovim, hI, hA, hB, countClose_one_close]
        omega
      | ok m =>
        cases hC : envO.close with
        | ok u =>
          simp only [openFileInNeovim, hI, hA, hB, hC, countClose_one_close]
          omega
        | error e =>
          simp only [openFileInNeovim, hI, hA, hB, hC, countClose_two_close]
          omega
    · intro e tr hB
      rw [hB] at hz
      have hz2 : countClose tr = 0 := hz
      constructor
      · simp [openFileInNeovim, hI, hA, hB]
      · simp only [openFileInNeovim, hI, hA, hB, countClose_one_close]
        omega
    · intro m tr hB
      rw [hB] at hz
      have hz2 : countClose tr = 0 := hz
      constructor
      · intro hC
        constructor
        · simp [openFileInNeovim, hI, hA, hB, hC]
        · simp only [openFileInNeovim, hI, hA, hB, hC, countClose_one_close]
          omega
      · intro e hC
        constructor
        · simp [openFileInNeovim, hI, hA, hB, hC]
        · simp only [openFileInNeovim, hI, hA, hB, hC, countClose_two_close]
          omega
  · intro hA
    have hz : countClose (execBodyCore envE cmd ks).2 = 0 :=
      countClose_eq_zero_of_not_mem _ (execBodyCore_no_close envE cmd ks)
    refine ⟨?_, ?_, ?_⟩
    · rcases hB : execBodyCore envE cmd ks with ⟨res, tr⟩
      rw [hB] at hz
      have hz2 : countClose tr = 0 := hz
      cases res with
      | error e =>
        simp only [executeInNeovim, hI, hA, hB, countClose_one_close]
        omega
      | ok mo =>
        cases hC : envE.close with
        | ok u =>
          simp only [executeInNeovim, hI, hA, hB, hC, countClose_one_close]
          omega
        | error e =>
          simp only [executeInNeovim, hI, hA, hB, hC, countClose_two_close]
          omega
    · intro e tr hB
      rw [hB] at hz
      have hz2 : countClose tr = 0 := hz
      constructor
      · simp [executeInNeovim, hI, hA, hB]
      · simp only [executeInNeovim, hI, hA, hB, countClose_one_close]
        omega
    · intro mo tr hB
      rw [hB] at hz
      have hz2 : countClose tr = 0 := hz
      constructor
      · intro hC
        constructor
        · simp [executeInNeovim, hI, hA, hB, hC]
        · simp only [executeInNeovim, hI, hA, hB, hC, countClose_one_close]
          omega
      · intro e hC
        constructor
        · simp [executeInNeovim, hI, hA, hB, hC]
        · simp only [executeInNeovim, hI, hA, hB, hC, countClose_two_close]
          omega

/-- Witness for the amended C2 at concrete inputs: the close-failing
environments of all three operations, where close is attempted at least
once and at most twice. -/
theorem C2_amended_witness :
    (1 ≤ countClose (getNeovimInstanceDetails envCloseFail fsOne 7).2 ∧
      countClose (getNeovimInstanceDetails envCloseFail fsOne 7).2 ≤ 2) ∧
    (1 ≤ countClose (openFileInNeovim envOpenCloseFail fsOne 7 "f.txt" none none none none).2 ∧
      countClose (openFileInNeovim envOpenCloseFail fsOne 7 "f.txt" none none none none).2 ≤ 2) ∧
    (1 ≤ countClose (executeInNeovim envExecCloseFail fsOne 7 ":w" false).2 ∧
      countClose (executeInNeovim envExecCloseFail fsOne 7 ":w" false).2 ≤ 2) := by
  have h := C2_amended_close_discipline envCloseFail envOpenCloseFail envExecCloseFail
    fsOne 7 { socket := "/tmp/nvim-7.sock", pid := 7 } "f.txt" ":w"
    none none none none false (by decide)
  exact ⟨(h.1 rfl).1, (h.2.1 rfl).1, (h.2.2 rfl).1⟩

/-- C9 counterexample: the claim is false. On a fully succeeding remote
with two buffers, the snapshot dispatches both buffer-name fetches before
either buffer-loaded fetch (the `Promise.all` mappers all start before any
per-buffer result is consumed), so the trace is not the strictly
sequential per-buffer order of §4.4. -/
theorem C9_counterexample : ¬ claimC9 := by
  intro h
  have := h envTwoBuf fsOne 7 { socket := "/tmp/nvim-7.sock", pid := 7 } "/home" 1 "a"
    (1, 1) [(1, { name := .ok "a", loaded := .ok true }),
            (2, { name := .ok "b", loaded := .ok true })]
    (by decide) rfl rfl rfl rfl rfl rfl rfl
  exact absurd this (by decide)

/-- C9 amended: the top-level snapshot calls (getcwd, current buffer,
its name, cursor position, buffer list) are dispatched strictly in
sequence, but the per-buffer fetches are dispatched in parallel by
`Promise.all`: every buffer's `name` fetch is issued, in buffer order,
before any buffer's `loaded` fetch; the `loaded` fetches follow for the
buffers whose name fetch resolved, again in buffer order. -/
theorem C9_amended_parallel_buffer_phase (env : DetailsEnv) (fs : FS) (pid : Nat)
    (inst : NeovimInstance) (wd : String) (cid : Nat) (cn : String) (p : Int × Int)
    (bs : List (Nat × BufferRemote))
    (hI : getNeovimInstance fs pid = some inst) (hA : env.attach = .ok ())
    (hW : env.getcwd = .ok wd) (hB : env.currentBuffer = .ok cid)
    (hN : env.currentBufferName = .ok cn) (hP : env.getpos = .ok p)
    (hL : env.buffers = .ok bs) (hCl : env.close = .ok ()) :
    (getNeovimInstanceDetails env fs pid).2 =
      [Event.attach, Event.rpcGetcwd, Event.rpcCurrentBuffer, Event.rpcBufferName cid,
        Event.rpcGetpos, Event.rpcBufferList] ++
        (bs.map (fun b => Event.rpcBufferName b.1) ++
          (bs.filter (fun b => exOk b.2.name)).map (fun b => Event.rpcBufferLoaded b.1)) ++
        [Event.close] := by
  cases hF : fetchBufferInfos cid bs with
  | error e =>
    simp [getNeovimInstanceDetails, detailsBodyCore, bufferPhaseTrace, hI, hA, hW, hB,
      hN, hP, hL, hCl, hF]
  | ok infos =>
    simp [getNeovimInstanceDetails, detailsBodyCore, bufferPhaseTrace, hI, hA, hW, hB,
      hN, hP, hL, hCl, hF]

/-- Witness for the amended C9 at a concrete input with two buffers. -/
theorem C9_amended_witness :
    (getNeovimInstanceDetails envTwoBuf fsOne 7).2 =
      [Event.attach, Event.rpcGetcwd, Event.rpcCurrentBuffer, Event.rpcBufferName 1,
        Event.rpcGetpos, Event.rpcBufferList] ++
        (([(1, ({ name := .ok "a", loaded := .ok true } : BufferRemote)),
           (2, ({ name := .ok "b", loaded := .ok true } : BufferRemote))].map
            (fun b => Event.rpcBufferName b.1) ++
          ([(1, ({ name := .ok "a", loaded := .ok true } : BufferRemote)),
            (2, ({ name := .ok "b", loaded := .ok true } : BufferRemote))].filter
              (fun b => exOk b.2.name)).map (fun b => Event.rpcBufferLoaded b.1))) ++
        [Event.close] :=
  C9_amended_parallel_buffer_phase envTwoBuf fsOne 7
    { socket := "/tmp/nvim-7.sock", pid := 7 } "/home" 1 "a" (1, 1)
    [(1, { name := .ok "a", loaded := .ok true }),
     (2, { name := .ok "b", loaded := .ok true })]
    (by decide) rfl rfl rfl rfl rfl rfl rfl

/-- C6 counterexample: the claim is false. The directory entry
`nvim-1-nvim-2.sock` does not match the whole-name pattern
`nvim-<digits>.sock`, so the claim requires it to be skipped; but the
code's unanchored regex, guarded only by `startsWith`/`endsWith`, accepts
it and parses pid 2 from the embedded `nvim-2.sock` substring. -/
theorem C6_counterexample : ¬ claimC6 := by
  intro h
  have := (h fsOdd ["nvim-1-nvim-2.sock"]).2.2 rfl rfl
  exact absurd this (by decide)

/-- The discovery loop is the filterMap of the per-entry acceptance
function actually implemented by the code. -/
theorem findNeovimSocketsGo_eq_filterMap (fs : FS) (files : List String) :
    findNeovimSocketsGo fs files = files.filterMap (codeAccept fs) := by
  induction files with
  | nil => rfl
  | cons f rest ih =>
    rw [List.filterMap_cons]
    unfold findNeovimSocketsGo
    cases hg : (jsStartsWith f "nvim-" && jsEndsWith f ".sock") with
    | false => simp [codeAccept, hg, ih]
    | true =>
      cases hs : fs.stat ("/tmp/" ++ f) with
      | error u => simp [codeAccept, hg, hs, ih]
      | ok st =>
        cases hsock : st.isSocket with
        | false => simp [codeAccept, hg, hs, hsock, ih]
        | true =>
          cases hm : findNvimSockMatch f.data with
          | none => simp [codeAccept, hg, hs, hsock, hm, ih]
          | some pid => simp [codeAccept, hg, hs, hsock, hm, ih]

/-- An entry whose whole name is of the spec pattern `nvim-<digits>.sock`
and whose stat reports a socket is accepted by the code with the pid
parsed from the digit run. -/
theorem specSocketName_codeAccept (fs : FS) (f : String) (st : FileStat)
    (hspec : specSocketName f = true) (hstat : fs.stat ("/tmp/" ++ f) = .ok st)
    (hsock : st.isSocket = true) :
    codeAccept fs f =
      some { socket := "/tmp/" ++ f, pid := digitsToNat (specDigits f) } := by
  simp only [specSocketName, Bool.and_eq_true, decide_eq_true_eq] at hspec
  obtain ⟨h1, h2, h3⟩ := hspec
  have h4 : ((".sock".data : List Char)).take 5 = ".sock".data := rfl
  have hm : matchNvimSockAt f.data = some (digitsToNat (specDigits f)) := by
    simp [matchNvimSockAt, h1, h2, h3, h4, specDigits]
  have hfm : findNvimSockMatch f.data = some (digitsToNat (specDigits f)) := by
    cases hfd : f.data with
    | nil =>
      rw [hfd] at h1
      exact absurd h1 (by decide)
    | cons c cs =>
      rw [hfd] at hm
      simp [findNvimSockMatch, hm]
  have e2 : f.data.drop 5 = specDigits f ++ ".sock".data := by
    conv_lhs => rw [← List.takeWhile_append_dropWhile (p := Char.isDigit)
      (l := f.data.drop 5)]
    rw [h3]
    rfl
  have hdecomp : f.data = ("nvim-".data ++ specDigits f) ++ ".sock".data := by
    conv_lhs => rw [← List.take_append_drop 5 f.data]
    rw [h1, e2, ← List.append_assoc]
  have hsw : jsStartsWith f "nvim-" = true := by
    simp only [jsStartsWith, decide_eq_true_eq]
    exact h1
  have hew : jsEndsWith f ".sock" = true := by
    simp only [jsEndsWith, decide_eq_true_eq]
    have hlen : f.data.length - ((".sock".data : List Char)).length =
        ("nvim-".data ++ specDigits f).length := by
      rw [hdecomp, List.length_append]
      simp
    rw [hlen]
    conv_lhs => rw [hdecomp]
    exact List.drop_left _ _
  simp [codeAccept, hsw, hew, hstat, hsock, hfm]

/-- C6 amended: discovery returns one instance per directory entry that
starts with `nvim-`, ends with `.sock`, is a socket per a successful stat,
and contains a substring of the form `nvim-<digits>.sock` (the pid is the
digit run of the leftmost such substring, so for names exactly of the form
`nvim-<digits>.sock` it is the parsed digit run); entries failing any of
these checks, or whose stat fails, are skipped; a missing directory or a
directory-read failure yields an empty list. -/
theorem C6_amended_discovery (fs : FS) (files : List String) :
    (fs.tmpExists = false → findNeovimSockets fs = []) ∧
    (fs.readdir = .error () → findNeovimSockets fs = []) ∧
    (fs.tmpExists = true → fs.readdir = .ok files →
      findNeovimSockets fs = files.filterMap (codeAccept fs)) ∧
    (∀ f st, specSocketName f = true → fs.stat ("/tmp/" ++ f) = .ok st →
      st.isSocket = true →
      codeAccept fs f =
        some { socket := "/tmp/" ++ f, pid := digitsToNat (specDigits f) }) := by
  refine ⟨?_, ?_, ?_, ?_⟩
  · intro h
    simp [findNeovimSockets, h]
  · intro h
    cases ht : fs.tmpExists with
    | false => simp [findNeovimSockets, ht]
    | true => simp [findNeovimSockets, ht, h]
  · intro ht hr
    simp [findNeovimSockets, ht, hr, findNeovimSocketsGo_eq_filterMap]
  · intro f st hspec hstat hsock
    exact specSocketName_codeAccept fs f st hspec hstat hsock

/-- Witness for the amended C6 at a concrete input. -/
theorem C6_amended_witness :
    findNeovimSockets fsOne = ["nvim-7.sock"].filterMap (codeAccept fsOne) ∧
    codeAccept fsOne "nvim-7.sock" =
      some { socket := "/tmp/" ++ "nvim-7.sock",
             pid := digitsToNat (specDigits "nvim-7.sock") } :=
  ⟨(C6_amended_discovery fsOne ["nvim-7.sock"]).2.2.1 rfl rfl,
    (C6_amended_discovery fsOne ["nvim-7.sock"]).2.2.2 "nvim-7.sock"
      { isSocket := true } (by decide) rfl rfl⟩

/-- Witness for C10 at a concrete input: explicit zero columns give the
same trace as omitted columns. -/
theorem C10_witness :
    (openFileInNeovim envOpenOk fsOne 7 "f.txt" (some 10) (some 0) none none).2 =
      (openFileInNeovim envOpenOk fsOne 7 "f.txt" (some 10) none none none).2 ∧
    openFileInNeovim envOpenOk fsOne 7 "f.txt" (some 10) none (some 20) (some 0) =
      openFileInNeovim envOpenOk fsOne 7 "f.txt" (some 10) none (some 20) none :=
  ⟨(C10_zero_column_defaults envOpenOk fsOne 7 "f.txt" 10 none none none 20).1,
    (C10_zero_column_defaults envOpenOk fsOne 7 "f.txt" 10 none none none 20).2.2.2.2⟩
